import Mathlib

/-!
# Verification of the cellular-automata request/response core

Shallow embedding of the `automata` repository:
* the integrity-envelope codec of `src/automata/protocol.py` (`CAsynapse`),
  including a complete executable SHA-256 (the behaviour of `hashlib.sha256`,
  FIPS 180-4) over byte lists;
* the rule functions of `src/cell_automata/protocol.py`,
  `src/cell_automata/utils/ca_rules.py` and `src/automata/utils/rulesets.py`;
* the grid-evolution entry points (`Simulate` in `src/cell_automata/protocol.py`
  and `miner.evolve_automata` / `miner.forward` in `src/neurons/miner.py`),
  over a model of cellpylib's `evolve2d` (documented semantics: the returned
  history has `timesteps` rows, the first being the initial state; the grid is
  periodic, and the neighbourhood window passed to the rule includes the
  centre cell).

Bytes are `Nat` values `< 256`; machine words are `Nat` reduced mod `2 ^ 32`.
-/

set_option maxRecDepth 16384

namespace Automata

/-! ## SHA-256 (`hashlib.sha256(...).hexdigest()`) -/

namespace SHA256

/-- Reduce to a 32-bit word. -/
def w32 (x : Nat) : Nat := x % 4294967296

/-- Right rotation of a 32-bit word. -/
def rotr (n x : Nat) : Nat := w32 ((x >>> n) ||| (x <<< (32 - n)))

def bigSigma0 (x : Nat) : Nat := (rotr 2 x) ^^^ (rotr 13 x) ^^^ (rotr 22 x)

def bigSigma1 (x : Nat) : Nat := (rotr 6 x) ^^^ (rotr 11 x) ^^^ (rotr 25 x)

def smallSigma0 (x : Nat) : Nat := (rotr 7 x) ^^^ (rotr 18 x) ^^^ (x >>> 3)

def smallSigma1 (x : Nat) : Nat := (rotr 17 x) ^^^ (rotr 19 x) ^^^ (x >>> 10)

def ch (x y z : Nat) : Nat := (x &&& y) ^^^ ((x ^^^ 4294967295) &&& z)

def maj (x y z : Nat) : Nat := (x &&& y) ^^^ (x &&& z) ^^^ (y &&& z)

/-- The 64 round constants (decimal values of FIPS 180-4 §4.2.2). -/
def K : List Nat :=
  [1116352408, 1899447441, 3049323471, 3921009573, 961987163, 1508970993,
   2453635748, 2870763221, 3624381080, 310598401, 607225278, 1426881987,
   1925078388, 2162078206, 2614888103, 3248222580, 3835390401, 4022224774,
   264347078, 604807628, 770255983, 1249150122, 1555081692, 1996064986,
   2554220882, 2821834349, 2952996808, 3210313671, 3336571891, 3584528711,
   113926993, 338241895, 666307205, 773529912, 1294757372, 1396182291,
   1695183700, 1986661051, 2177026350, 2456956037, 2730485921, 2820302411,
   3259730800, 3345764771, 3516065817, 3600352804, 4094571909, 275423344,
   430227734, 506948616, 659060556, 883997877, 958139571, 1322822218,
   1537002063, 1747873779, 1955562222, 2024104815, 2227730452, 2361852424,
   2428436474, 2756734187, 3204031479, 3329325298]

/-- Working state / hash state: eight 32-bit words. -/
structure Hash8 where
  a : Nat
  b : Nat
  c : Nat
  d : Nat
  e : Nat
  f : Nat
  g : Nat
  h : Nat
deriving DecidableEq

/-- Initial hash value (decimal values of FIPS 180-4 §5.3.3). -/
def H0 : Hash8 :=
  ⟨1779033703, 3144134277, 1013904242, 2773480762,
   1359893119, 2600822924, 528734635, 1541459225⟩

/-- Big-endian 8-byte encoding of a (64-bit) length. -/
def be64 (n : Nat) : List Nat :=
  [(n >>> 56) % 256, (n >>> 48) % 256, (n >>> 40) % 256, (n >>> 32) % 256,
   (n >>> 24) % 256, (n >>> 16) % 256, (n >>> 8) % 256, n % 256]

/-- Pad a byte message to a multiple of 64 bytes (FIPS 180-4 §5.1.1). -/
def pad (msg : List Nat) : List Nat :=
  let L := msg.length
  let k := (119 - L % 64) % 64
  msg ++ 128 :: List.replicate k 0 ++ be64 (8 * L)

/-- Pack bytes into big-endian 32-bit words, four bytes per word. -/
def bytesToWords : List Nat → List Nat
  | b0 :: b1 :: b2 :: b3 :: rest =>
      ((b0 <<< 24) ||| (b1 <<< 16) ||| (b2 <<< 8) ||| b3) :: bytesToWords rest
  | _ => []

/-- Extend the 16-word message schedule by `k` further words. -/
def extendSched : Nat → List Nat → List Nat
  | 0, ws => ws
  | k + 1, ws =>
      let t := ws.length
      let nw := w32 (smallSigma1 (ws.getD (t - 2) 0) + ws.getD (t - 7) 0 +
        smallSigma0 (ws.getD (t - 15) 0) + ws.getD (t - 16) 0)
      extendSched k (ws ++ [nw])

/-- One compression round, consuming a (round constant, schedule word) pair. -/
def round (st : Hash8) (kw : Nat × Nat) : Hash8 :=
  let t1 := w32 (st.h + bigSigma1 st.e + ch st.e st.f st.g + kw.1 + kw.2)
  let t2 := w32 (bigSigma0 st.a + maj st.a st.b st.c)
  ⟨w32 (t1 + t2), st.a, st.b, st.c, w32 (st.d + t1), st.e, st.f, st.g⟩

/-- Compress one 64-byte block into the running hash. -/
def compressBlock (h0 : Hash8) (block : List Nat) : Hash8 :=
  let ws := extendSched 48 (bytesToWords block)
  let st := (K.zip ws).foldl round h0
  ⟨w32 (h0.a + st.a), w32 (h0.b + st.b), w32 (h0.c + st.c), w32 (h0.d + st.d),
   w32 (h0.e + st.e), w32 (h0.f + st.f), w32 (h0.g + st.g), w32 (h0.h + st.h)⟩

/-- Process `n` 64-byte blocks of the padded message. -/
def processBlocks : Nat → Hash8 → List Nat → Hash8
  | 0, h, _ => h
  | n + 1, h, l => processBlocks n (compressBlock h (l.take 64)) (l.drop 64)

/-- Big-endian bytes of a 32-bit word. -/
def wordBE (w : Nat) : List Nat :=
  [(w >>> 24) % 256, (w >>> 16) % 256, (w >>> 8) % 256, w % 256]

/-- The 32-byte SHA-256 digest of a byte message. -/
def sha256 (msg : List Nat) : List Nat :=
  let p := pad msg
  let hf := processBlocks (p.length / 64) H0 p
  wordBE hf.a ++ wordBE hf.b ++ wordBE hf.c ++ wordBE hf.d ++
  wordBE hf.e ++ wordBE hf.f ++ wordBE hf.g ++ wordBE hf.h

/-- Lower-case hex character for a value below 16. -/
def hexChar (n : Nat) : Char := if n < 10 then Char.ofNat (48 + n) else Char.ofNat (87 + n)

/-- Two hex characters for one byte. -/
def byteHex (b : Nat) : List Char := [hexChar (b / 16), hexChar (b % 16)]

/-- `hashlib.sha256(msg).hexdigest()`: the 64-character lower-case hex digest. -/
def sha256hex (msg : List Nat) : String := ⟨(sha256 msg).flatMap byteHex⟩

theorem sha256_length (msg : List Nat) : (sha256 msg).length = 32 := by
  simp [sha256, wordBE]

theorem length_flatMap_byteHex (l : List Nat) : (l.flatMap byteHex).length = 2 * l.length := by
  induction l with
  | nil => simp
  | cons b bs ih => simp [byteHex, ih]; omega

theorem sha256hex_length (msg : List Nat) : (sha256hex msg).length = 64 := by
  show ((sha256 msg).flatMap byteHex).length = 64
  rw [length_flatMap_byteHex, sha256_length]

theorem sha256hex_ne_empty (msg : List Nat) : sha256hex msg ≠ "" := by
  intro h
  have := sha256hex_length msg
  rw [h] at this
  simp [String.length] at this

end SHA256

/-!
## Integrity envelope codec (`src/automata/protocol.py`, class `CAsynapse`)

A numpy array is embedded as a `Grid`: its dtype, its shape, and the flat
row-major list of element bit patterns (each a `Nat` below `2 ^ (8 * width)`;
this is exactly what `tobytes` serializes and `frombuffer` reinterprets, so
"bit-for-bit" equality is equality of `Grid`s).  The JSON metadata dictionary
is embedded as a record; fields read in the source with `dict.get` (which may
be absent from a received dictionary) are `Option`-valued.  `json.dumps` /
`json.loads` are mutually inverse on these records and add nothing the claims
depend on, so the metadata record itself is the transmitted metadata block.
-/

/-- The numpy element types the model covers (fixed-width integers; elements
are stored as raw bit patterns, so signedness only affects the name). -/
inductive Dtype
  | uint8 | int8 | uint16 | int16 | uint32 | int32 | uint64 | int64
deriving DecidableEq

/-- `np.dtype.itemsize`: the element byte width. -/
def Dtype.itemsize : Dtype → Nat
  | .uint8 => 1 | .int8 => 1
  | .uint16 => 2 | .int16 => 2
  | .uint32 => 4 | .int32 => 4
  | .uint64 => 8 | .int64 => 8

/-- `str(np.dtype)`: the canonical dtype name. -/
def Dtype.name : Dtype → String
  | .uint8 => "uint8" | .int8 => "int8"
  | .uint16 => "uint16" | .int16 => "int16"
  | .uint32 => "uint32" | .int32 => "int32"
  | .uint64 => "uint64" | .int64 => "int64"

/-- `np.dtype(s)`: resolve a dtype name (`none` models the `TypeError` numpy
raises on an unrecognised name). -/
def dtypeOfString (s : String) : Option Dtype :=
  if s = "uint8" then some .uint8
  else if s = "int8" then some .int8
  else if s = "uint16" then some .uint16
  else if s = "int16" then some .int16
  else if s = "uint32" then some .uint32
  else if s = "int32" then some .int32
  else if s = "uint64" then some .uint64
  else if s = "int64" then some .int64
  else none

/-- A numpy array: dtype, shape, and the flat row-major element list. -/
structure Grid where
  dtype : Dtype
  shape : List Nat
  data : List Nat
deriving DecidableEq

/-- A `Grid` is the embedding of an actual numpy array when its buffer length
matches its shape and every element fits the dtype's width. -/
def Grid.valid (g : Grid) : Prop :=
  g.data.length = g.shape.prod ∧ ∀ x ∈ g.data, x < 2 ^ (8 * g.dtype.itemsize)

instance (g : Grid) : Decidable g.valid := by unfold Grid.valid; infer_instance

/-- Little-endian byte encoding of one element value into `w` bytes. -/
def toLEBytes : Nat → Nat → List Nat
  | 0, _ => []
  | w + 1, n => n % 256 :: toLEBytes w (n / 256)

/-- Little-endian value of a byte list. -/
def fromLEBytes : List Nat → Nat
  | [] => 0
  | b :: bs => b + 256 * fromLEBytes bs

/-- `np.frombuffer`: cut the buffer into elements of width `p + 1` bytes
(little-endian, numpy's native order). -/
def fromBufferAux (p : Nat) : List Nat → List Nat
  | [] => []
  | b :: bs => fromLEBytes (b :: bs.take p) :: fromBufferAux p (bs.drop p)
termination_by l => l.length
decreasing_by simp; omega

/-- `ndarray.tobytes()`: the raw row-major buffer. -/
def Grid.tobytes (g : Grid) : List Nat :=
  g.data.flatMap (toLEBytes g.dtype.itemsize)

/-- The metadata dictionary built by `CAsynapse.serialize_parameters`.
`hash`, `steps`, `rule_func` and `neighborhood_func` are read back with
`dict.get` and so may be absent in a received block. -/
structure ParamsMetadata where
  dtype : String
  shape : List Nat
  hash : Option String
  steps : Option Int
  rule_func : Option String
  neighborhood_func : Option String
deriving DecidableEq

/-- The metadata dictionary built by `CAsynapse.serialize_automaton`. -/
structure AutomatonMetadata where
  dtype : String
  shape : List Nat
  hash : Option String
deriving DecidableEq

/-- Decode failures of `deserialize_parameters` / `deserialize_automaton`:
`integrity` is the `ValueError("Data integrity check failed!")`; `badDtype`
the `TypeError` from `np.dtype`; `badShape` the `ValueError` from
`np.frombuffer` (buffer not a multiple of the element size) or `reshape`
(element count differs from the product of the declared shape). -/
inductive DecodeError
  | integrity | badDtype | badShape
deriving DecidableEq

/-- `CAsynapse.serialize_parameters`: validate the scalar parameters, then
emit the metadata record (with the SHA-256 hex digest of the buffer) and the
raw buffer.  The `isinstance(initial_state, np.ndarray)` guard is satisfied
by every `Grid` and the `isinstance(steps, int)` guard by every `Int`. -/
def serialize_parameters (initial_state : Grid) (steps : Int)
    (rule_func neighborhood_func : String) :
    Except String (ParamsMetadata × List Nat) :=
  if steps ≤ 0 then .error "steps must be a positive integer"
  else if rule_func = "" then .error "rule_func must be a non-empty string"
  else if neighborhood_func = "" then .error "neighborhood_func must be a non-empty string"
  else
    let array_bytes := initial_state.tobytes
    let array_hash := SHA256.sha256hex array_bytes
    .ok (⟨initial_state.dtype.name, initial_state.shape, some array_hash,
          some steps, some rule_func, some neighborhood_func⟩, array_bytes)

/-- `CAsynapse.deserialize_parameters`: recompute the digest of the payload
and compare it with `metadata.get("hash", "")`, failing on mismatch; then
reinterpret the buffer under the declared dtype and reshape to the declared
shape. -/
def deserialize_parameters (metadata : ParamsMetadata) (array_bytes : List Nat) :
    Except DecodeError (Grid × Option Int × Option String × Option String) :=
  if SHA256.sha256hex array_bytes ≠ metadata.hash.getD "" then .error .integrity
  else
    match dtypeOfString metadata.dtype with
    | none => .error .badDtype
    | some dt =>
      if array_bytes.length % dt.itemsize ≠ 0 then .error .badShape
      else
        let data := fromBufferAux (dt.itemsize - 1) array_bytes
        if data.length ≠ metadata.shape.prod then .error .badShape
        else .ok (⟨dt, metadata.shape, data⟩, metadata.steps,
                  metadata.rule_func, metadata.neighborhood_func)

/-- `CAsynapse.serialize_automaton`: returns, in source order, the raw buffer
and the metadata record carrying its SHA-256 hex digest. -/
def serialize_automaton (automaton : Grid) : List Nat × AutomatonMetadata :=
  let automaton_bytes := automaton.tobytes
  let automaton_hash := SHA256.sha256hex automaton_bytes
  (automaton_bytes, ⟨automaton.dtype.name, automaton.shape, some automaton_hash⟩)

/-- `CAsynapse.deserialize_automaton`: digest check against
`metadata.get("hash", "")`, then reinterpret and reshape. -/
def deserialize_automaton (metadata : AutomatonMetadata) (automaton_bytes : List Nat) :
    Except DecodeError Grid :=
  if SHA256.sha256hex automaton_bytes ≠ metadata.hash.getD "" then .error .integrity
  else
    match dtypeOfString metadata.dtype with
    | none => .error .badDtype
    | some dt =>
      if automaton_bytes.length % dt.itemsize ≠ 0 then .error .badShape
      else
        let data := fromBufferAux (dt.itemsize - 1) automaton_bytes
        if data.length ≠ metadata.shape.prod then .error .badShape
        else .ok ⟨dt, metadata.shape, data⟩

/-! ### Codec lemmas -/

theorem Dtype.itemsize_pos (dt : Dtype) : 0 < dt.itemsize := by
  cases dt <;> simp [Dtype.itemsize]

theorem dtypeOfString_name (dt : Dtype) : dtypeOfString dt.name = some dt := by
  cases dt <;> rfl

theorem toLEBytes_length (w n : Nat) : (toLEBytes w n).length = w := by
  induction w generalizing n with
  | zero => rfl
  | succ w ih => simp [toLEBytes, ih]

theorem fromLEBytes_toLEBytes (w n : Nat) (h : n < 2 ^ (8 * w)) :
    fromLEBytes (toLEBytes w n) = n := by
  induction w generalizing n with
  | zero => simp at h; simp [h, toLEBytes, fromLEBytes]
  | succ w ih =>
    have hdiv : n / 256 < 2 ^ (8 * w) := by
      have h256 : (256 : Nat) = 2 ^ 8 := by norm_num
      rw [Nat.div_lt_iff_lt_mul (by norm_num : 0 < 256), h256, ← pow_add]
      have : 8 * w + 8 = 8 * (w + 1) := by ring
      rwa [this]
    simp only [toLEBytes, fromLEBytes, ih _ hdiv]
    exact Nat.mod_add_div n 256

theorem tobytes_length (g : Grid) : g.tobytes.length = g.data.length * g.dtype.itemsize := by
  unfold Grid.tobytes
  induction g.data with
  | nil => simp
  | cons x xs ih => simp [toLEBytes_length, ih]; ring

theorem fromBufferAux_flatMap (p : Nat) (data : List Nat)
    (hb : ∀ x ∈ data, x < 2 ^ (8 * (p + 1))) :
    fromBufferAux p (data.flatMap (toLEBytes (p + 1))) = data := by
  induction data with
  | nil => simp only [List.flatMap_nil]; rw [fromBufferAux]
  | cons x xs ih =>
    have hx := hb x (by simp)
    have hrest : ∀ y ∈ xs, y < 2 ^ (8 * (p + 1)) := fun y hy => hb y (by simp [hy])
    have hlen : (toLEBytes p (x / 256)).length = p := toLEBytes_length p _
    simp only [List.flatMap_cons, toLEBytes, List.cons_append]
    rw [fromBufferAux]
    congr 1
    · rw [List.take_append_of_le_length (by omega), List.take_of_length_le (by omega)]
      exact fromLEBytes_toLEBytes (p + 1) x hx
    · rw [List.drop_append_of_le_length (by omega), List.drop_of_length_le (by omega),
        List.nil_append]
      exact ih hrest

/-- The parameters-metadata record emitted by a successful
`serialize_parameters` call. -/
def paramsMetadataOf (g : Grid) (steps : Int) (rule_func neighborhood_func : String) :
    ParamsMetadata :=
  ⟨g.dtype.name, g.shape, some (SHA256.sha256hex g.tobytes),
   some steps, some rule_func, some neighborhood_func⟩

theorem deserialize_tobytes (g : Grid) (hval : g.valid) :
    fromBufferAux (g.dtype.itemsize - 1) g.tobytes = g.data := by
  have hpos := g.dtype.itemsize_pos
  have heq : g.dtype.itemsize - 1 + 1 = g.dtype.itemsize := by omega
  have hb : ∀ x ∈ g.data, x < 2 ^ (8 * (g.dtype.itemsize - 1 + 1)) := by
    rw [heq]; exact hval.2
  have h := fromBufferAux_flatMap (g.dtype.itemsize - 1) g.data hb
  rw [heq] at h
  exact h

/-!
## Rule engine

Two near-duplicate copies exist in the source.

`src/cell_automata/protocol.py` (identical bodies in
`src/cell_automata/utils/ca_rules.py`): the rule receives the raw
neighbourhood array `n` — which, under cellpylib's `evolve2d`, contains the
centre cell — and a second argument `c`, and sums the whole of `n`
(`np.sum` flattens, so `n` is embedded as the flat list of window cells).
Cell states are `Int` (numpy integers); Python truthiness of an integer is
`≠ 0`.

`src/automata/utils/rulesets.py`: the rule receives the 3×3 window as a
nested array, reads the centre as `neighbourhood[1][1]`, and subtracts it
from the total before comparing.  Its `if` chains fall through to Python
`None` when no branch fires, embedded as `Option Int` with `none` for the
fall-through (for the integer-exhaustive chains the fall-through is
provably unreachable, but the embedding keeps it).
-/

namespace cell_automata

/-- `ConwayRule.rule_function`: `int(c and 2 <= sum_n <= 3 or sum_n == 3)`. -/
def ConwayRule.rule_function (n : List Int) (c : Int) (t : Nat) : Int :=
  let sum_n := n.sum
  if (c ≠ 0 ∧ (2 ≤ sum_n ∧ sum_n ≤ 3)) ∨ sum_n = 3 then 1 else 0

/-- `HighLifeRule.rule_function`: `int(c and 2 <= sum_n <= 3 or sum_n == 6)`. -/
def HighLifeRule.rule_function (n : List Int) (c : Int) (t : Nat) : Int :=
  let sum_n := n.sum
  if (c ≠ 0 ∧ (2 ≤ sum_n ∧ sum_n ≤ 3)) ∨ sum_n = 6 then 1 else 0

/-- `SeedsRule.rule_function`: `int(sum_n == 2)`. -/
def SeedsRule.rule_function (n : List Int) (c : Int) (t : Nat) : Int :=
  let sum_n := n.sum
  if sum_n = 2 then 1 else 0

/-- `BriansBrainRule.rule_function`: an `if/elif/elif` chain with no `else`,
returning Python `None` (here `none`) when the centre is dead and the window
sum is not 2. -/
def BriansBrainRule.rule_function (n : List Int) (c : Int) (t : Nat) : Option Int :=
  let sum_n := n.sum
  if c = 0 ∧ sum_n = 2 then some 1
  else if c = 1 then some 2
  else if c = 2 then some 0
  else none

end cell_automata

namespace rulesets

/-- `ConwayRule.apply_rule` (`src/automata/utils/rulesets.py`): reads the
centre from `neighbourhood[1][1]`, sums the whole window, and subtracts the
centre's contribution (`total - 1`) in the live branch.  The claims apply it
only to 3×3 windows, where `getD` is the plain (in-bounds) index access of
the source. -/
def ConwayRule.apply_rule (neighbourhood : List (List Int)) (c : Int) (t : Nat) :
    Option Int :=
  let center_cell := (neighbourhood.getD 1 []).getD 1 0
  let total := (neighbourhood.map List.sum).sum
  if center_cell = 1 then
    if total - 1 < 2 then some 0
    else if total - 1 = 2 ∨ total - 1 = 3 then some 1
    else if total - 1 > 3 then some 0
    else none
  else
    if total = 3 then some 1 else some 0

/-- `HighLifeRule.apply_rule`: same survive branch as Conway, birth on a
total of 3 or 6. -/
def HighLifeRule.apply_rule (neighbourhood : List (List Int)) (c : Int) (t : Nat) :
    Option Int :=
  let center_cell := (neighbourhood.getD 1 []).getD 1 0
  let total := (neighbourhood.map List.sum).sum
  if center_cell = 1 then
    if total - 1 < 2 then some 0
    else if total - 1 = 2 ∨ total - 1 = 3 then some 1
    else if total - 1 > 3 then some 0
    else none
  else
    if total = 3 ∨ total = 6 then some 1 else some 0

/-- `DayAndNightRule.apply_rule`. -/
def DayAndNightRule.apply_rule (neighbourhood : List (List Int)) (c : Int) (t : Nat) :
    Option Int :=
  let center_cell := (neighbourhood.getD 1 []).getD 1 0
  let total := (neighbourhood.map List.sum).sum
  if center_cell = 1 then
    if total - 1 < 2 then some 0
    else if total - 1 = 2 ∨ total - 1 = 3 then some 1
    else if total - 1 > 3 then some 0
    else none
  else
    if total = 3 ∨ total = 6 ∨ total = 7 ∨ total = 8 then some 1 else some 0

end rulesets

/-!
## Grid evolution

cellpylib's `evolve2d` (documented semantics, external library): the result
is the full history of the run with exactly `timesteps` rows, row 0 being the
initial grid; each later row is obtained by applying the rule at every cell
of the previous row over its radius-1 Moore window with periodic wrap-around,
one full generation at a time.  cellpylib passes the cell's *coordinates* as
the rule's second argument; the `rulesets` rules ignore it, so the model
passes `0`.  A Python `None` result would make cellpylib fail when storing
the cell; the model's `getD 0` is only exercised where the rule is total.
-/

/-- A 2-D grid of cells, rows of equal length. -/
abbrev GridState := List (List Int)

/-- Cell at (periodic) position `(i, j)`. -/
def cellAt (g : GridState) (i j : Nat) : Int :=
  (g.getD (i % g.length) []).getD (j % (g.headD []).length) 0

/-- The radius-1 Moore window around `(i, j)` with periodic wrap, centre
included (cellpylib's neighbourhood array). -/
def mooreWindow (g : GridState) (i j : Nat) : List (List Int) :=
  let r := g.length
  let cc := (g.headD []).length
  [[cellAt g (i + r - 1) (j + cc - 1), cellAt g (i + r - 1) j, cellAt g (i + r - 1) (j + 1)],
   [cellAt g i (j + cc - 1), cellAt g i j, cellAt g i (j + 1)],
   [cellAt g (i + 1) (j + cc - 1), cellAt g (i + 1) j, cellAt g (i + 1) (j + 1)]]

/-- One full generation: apply the rule at every cell of a snapshot. -/
def stepGrid (apply_rule : List (List Int) → Int → Nat → Option Int) (t : Nat)
    (g : GridState) : GridState :=
  (List.range g.length).map fun i =>
    (List.range (g.headD []).length).map fun j =>
      (apply_rule (mooreWindow g i j) 0 t).getD 0

/-- `timesteps` history rows starting from `g`, stepping with timestep
indices `t, t + 1, ...`. -/
def evolve2dAux (apply_rule : List (List Int) → Int → Nat → Option Int) :
    Nat → Nat → GridState → List GridState
  | 0, _, _ => []
  | k + 1, t, g => g :: evolve2dAux apply_rule k (t + 1) (stepGrid apply_rule t g)

/-- cellpylib `evolve2d`: the history of the run, `timesteps` rows including
the initial state. -/
def evolve2d (apply_rule : List (List Int) → Int → Nat → Option Int)
    (cellular_automaton : GridState) (timesteps : Nat) : List GridState :=
  evolve2dAux apply_rule timesteps 1 cellular_automaton

/-- `miner.rule_class_mapping` (`src/neurons/miner.py`): the closed registry
of rule identifiers available to the executor. -/
def rule_class_mapping (s : String) :
    Option (List (List Int) → Int → Nat → Option Int) :=
  if s = "Conway" then some rulesets.ConwayRule.apply_rule
  else if s = "HighLife" then some rulesets.HighLifeRule.apply_rule
  else if s = "DayAndNight" then some rulesets.DayAndNightRule.apply_rule
  else none

namespace miner

/-- `miner.evolve_automata`: run `cpl.evolve2d` for `steps` timesteps with
radius 1 and return the history. -/
def evolve_automata (initial_state : GridState) (steps : Nat)
    (rule_instance : List (List Int) → Int → Nat → Option Int) : List GridState :=
  evolve2d rule_instance initial_state steps

/-- `miner.forward`, from the rule lookup on: resolve the rule identifier in
`rule_class_mapping`, raising `ValueError` *before* any evolution step when
it is unregistered; otherwise evolve the received grid. -/
def forward (rule_func : String) (initial_state : GridState) (steps : Nat) :
    Except String (List GridState) :=
  match rule_class_mapping rule_func with
  | none => .error ("Rule " ++ rule_func ++ " is not recognized.")
  | some rule_instance => .ok (evolve_automata initial_state steps rule_instance)

end miner

/-- `Simulate` (`src/cell_automata/protocol.py`): the 2-D simulation runner. -/
structure Simulate where
  ca : GridState
  timesteps : Nat
  rule_instance : List (List Int) → Int → Nat → Option Int
  r : Nat
  neighborhood_type : String

/-- `Simulate.__init__`: any neighbourhood string outside
`["Moore", "von Neumann"]` is silently replaced by `"Moore"`; no error is
ever raised. -/
def Simulate.init (ca : GridState) (timesteps : Nat)
    (rule_instance : List (List Int) → Int → Nat → Option Int)
    (r : Nat) (neighbourhood_type : String) : Simulate :=
  let nt := if neighbourhood_type ∉ (["Moore", "von Neumann"] : List String)
    then "Moore" else neighbourhood_type
  ⟨ca, timesteps, rule_instance, r, nt⟩

/-- `Simulate.run`: `cpl.evolve2d` on the stored configuration. -/
def Simulate.run (s : Simulate) : List GridState :=
  evolve2d s.rule_instance s.ca s.timesteps

/-! ### Evolution lemmas -/

theorem evolve2dAux_length (apply_rule : List (List Int) → Int → Nat → Option Int)
    (k t : Nat) (g : GridState) : (evolve2dAux apply_rule k t g).length = k := by
  induction k generalizing t g with
  | zero => rfl
  | succ k ih => simp [evolve2dAux, ih]

theorem evolve2dAux_head (apply_rule : List (List Int) → Int → Nat → Option Int)
    (k t : Nat) (g : GridState) (hk : 1 ≤ k) :
    (evolve2dAux apply_rule k t g).head? = some g := by
  cases k with
  | zero => omega
  | succ k => rfl

/-! ## Claims -/

/-- C1: decode (`deserialize_parameters` / `deserialize_automaton`) recomputes
the SHA-256 digest of the payload bytes and raises the integrity error
whenever it differs from the digest stored in the metadata; no payload is
ever returned without the digest comparison succeeding; and decoding a
corrupted payload (e.g. any single byte flipped) against the metadata of the
original fails whenever the corruption changes the SHA-256 digest. -/
theorem C1_decode_digest_check (m : ParamsMetadata) (am : AutomatonMetadata)
    (payload : List Nat) :
    (SHA256.sha256hex payload ≠ m.hash.getD "" →
      deserialize_parameters m payload = .error .integrity) ∧
    (∀ r, deserialize_parameters m payload = .ok r →
      SHA256.sha256hex payload = m.hash.getD "") ∧
    (SHA256.sha256hex payload ≠ am.hash.getD "" →
      deserialize_automaton am payload = .error .integrity) ∧
    (∀ g, deserialize_automaton am payload = .ok g →
      SHA256.sha256hex payload = am.hash.getD "") ∧
    (∀ (g : Grid) (steps : Int) (rf nf : String) (md : ParamsMetadata) (p p' : List Nat),
      serialize_parameters g steps rf nf = .ok (md, p) →
      SHA256.sha256hex p' ≠ SHA256.sha256hex p →
      deserialize_parameters md p' = .error .integrity) := by
  refine ⟨?_, ?_, ?_, ?_, ?_⟩
  · intro h
    simp only [deserialize_parameters, if_pos h]
  · intro r h
    by_contra hne
    simp [deserialize_parameters, if_pos hne] at h
  · intro h
    simp only [deserialize_automaton, if_pos h]
  · intro g h
    by_contra hne
    simp [deserialize_automaton, if_pos hne] at h
  · intro g steps rf nf md p p' hser hne
    simp only [serialize_parameters] at hser
    split at hser
    · simp at hser
    · split at hser
      · simp at hser
      · split at hser
        · simp at hser
        · simp only [Except.ok.injEq, Prod.mk.injEq] at hser
          obtain ⟨hmd, hp⟩ := hser
          subst hp
          subst hmd
          simp [deserialize_parameters, hne]

theorem C1_decode_digest_check_witness :
    deserialize_parameters ⟨"uint8", [1], some "not-a-digest", none, none, none⟩ [7] =
      .error .integrity ∧
    deserialize_automaton ⟨"uint8", [1], some "not-a-digest"⟩ [7] = .error .integrity ∧
    deserialize_parameters (paramsMetadataOf ⟨Dtype.uint8, [2], [0, 1]⟩ 1 "Conway" "Moore")
      [0, 0] = .error .integrity :=
  ⟨(C1_decode_digest_check ⟨"uint8", [1], some "not-a-digest", none, none, none⟩
      ⟨"uint8", [1], some "not-a-digest"⟩ [7]).1 (by decide),
   (C1_decode_digest_check ⟨"uint8", [1], some "not-a-digest", none, none, none⟩
      ⟨"uint8", [1], some "not-a-digest"⟩ [7]).2.2.1 (by decide),
   (C1_decode_digest_check ⟨"uint8", [1], some "not-a-digest", none, none, none⟩
      ⟨"uint8", [1], some "not-a-digest"⟩ [0, 0]).2.2.2.2
     ⟨Dtype.uint8, [2], [0, 1]⟩ 1 "Conway" "Moore" _ _ [0, 0] rfl (by decide)⟩

/-- C2: decoding the result of encoding a grid returns a grid bit-for-bit
equal to it, with the same element type and shape, for both the parameters
envelope and the automaton envelope. -/
theorem C2_roundtrip (g : Grid) (steps : Int) (rule_func neighborhood_func : String)
    (hval : g.valid) (hs : 0 < steps) (hr : rule_func ≠ "") (hn : neighborhood_func ≠ "") :
    serialize_parameters g steps rule_func neighborhood_func =
      .ok (paramsMetadataOf g steps rule_func neighborhood_func, g.tobytes) ∧
    deserialize_parameters (paramsMetadataOf g steps rule_func neighborhood_func) g.tobytes =
      .ok (g, some steps, some rule_func, some neighborhood_func) ∧
    deserialize_automaton (serialize_automaton g).2 (serialize_automaton g).1 = .ok g := by
  have hmod : g.tobytes.length % g.dtype.itemsize = 0 := by
    rw [tobytes_length]; exact Nat.mul_mod_left _ _
  have hdata := deserialize_tobytes g hval
  refine ⟨?_, ?_, ?_⟩
  · simp only [serialize_parameters, if_neg (by omega : ¬ steps ≤ 0), if_neg hr, if_neg hn]
    rfl
  · simp only [deserialize_parameters, paramsMetadataOf, Option.getD_some, ne_eq,
      not_true_eq_false, if_false, dtypeOfString_name, hmod, hdata, hval.1,
      not_false_eq_true, if_true]
  · simp only [deserialize_automaton, serialize_automaton, Option.getD_some, ne_eq,
      not_true_eq_false, if_false, dtypeOfString_name, hmod, hdata, hval.1,
      not_false_eq_true, if_true]

theorem C2_roundtrip_witness :
    (⟨Dtype.uint16, [2, 1], [5, 300]⟩ : Grid).valid ∧ (0 : Int) < 3 ∧
    deserialize_parameters (paramsMetadataOf ⟨Dtype.uint16, [2, 1], [5, 300]⟩ 3 "Conway" "Moore")
      (⟨Dtype.uint16, [2, 1], [5, 300]⟩ : Grid).tobytes =
      .ok (⟨Dtype.uint16, [2, 1], [5, 300]⟩, some 3, some "Conway", some "Moore") ∧
    deserialize_automaton (serialize_automaton ⟨Dtype.uint16, [2, 1], [5, 300]⟩).2
      (serialize_automaton ⟨Dtype.uint16, [2, 1], [5, 300]⟩).1 =
      .ok ⟨Dtype.uint16, [2, 1], [5, 300]⟩ :=
  ⟨by decide, by decide,
   (C2_roundtrip ⟨Dtype.uint16, [2, 1], [5, 300]⟩ 3 "Conway" "Moore"
     (by decide) (by decide) (by decide) (by decide)).2.1,
   (C2_roundtrip ⟨Dtype.uint16, [2, 1], [5, 300]⟩ 3 "Conway" "Moore"
     (by decide) (by decide) (by decide) (by decide)).2.2⟩

/-- C3: on the Moore window `[[1,1,1],[0,1,0],[0,0,0]]` — live centre with
exactly three live neighbours, where the claimed Conway semantics requires
survival (value 1) — the `cell_automata` copy of the rule returns 0 (it
counts the centre in its window sum), while the `rulesets` copy, which
subtracts the centre, returns 1 as the claim states. -/
theorem C3_conway_copies_disagree :
    cell_automata.ConwayRule.rule_function [1, 1, 1, 0, 1, 0, 0, 0, 0] 1 0 = 0 ∧
    rulesets.ConwayRule.apply_rule [[1, 1, 1], [0, 1, 0], [0, 0, 0]] 1 0 = some 1 := by
  constructor <;> decide

/-- C4 counterexample: evolving for `k = 1` step returns 1 snapshot, not
`k + 1 = 2`: cellpylib's `timesteps` counts the initial state, so the
history has exactly `k` rows. -/
theorem C4_history_length_counterexample :
    (miner.evolve_automata [[0, 1, 0], [1, 0, 1], [0, 1, 0]] 1
      rulesets.ConwayRule.apply_rule).length ≠ 1 + 1 := by
  decide

/-- C4 (amended): for every initial grid and every positive step count `k`,
evolving returns a history of exactly `k` snapshots (not `k + 1`) whose
first element is the input grid, both through `miner.evolve_automata` and
through `Simulate.run`. -/
theorem C4_history_length_amended (g : GridState) (k : Nat)
    (apply_rule : List (List Int) → Int → Nat → Option Int) (r : Nat) (hk : 1 ≤ k) :
    (miner.evolve_automata g k apply_rule).length = k ∧
    (miner.evolve_automata g k apply_rule).head? = some g ∧
    (Simulate.init g k apply_rule r "Moore").run.length = k ∧
    (Simulate.init g k apply_rule r "Moore").run.head? = some g := by
  refine ⟨evolve2dAux_length _ _ _ _, evolve2dAux_head _ _ _ _ hk,
    evolve2dAux_length _ _ _ _, evolve2dAux_head _ _ _ _ hk⟩

theorem C4_history_length_amended_witness :
    1 ≤ 2 ∧
    (miner.evolve_automata [[0, 1], [1, 0]] 2 rulesets.ConwayRule.apply_rule).length = 2 ∧
    (miner.evolve_automata [[0, 1], [1, 0]] 2 rulesets.ConwayRule.apply_rule).head? =
      some [[0, 1], [1, 0]] :=
  ⟨by decide,
   (C4_history_length_amended [[0, 1], [1, 0]] 2 rulesets.ConwayRule.apply_rule 1 (by decide)).1,
   (C4_history_length_amended [[0, 1], [1, 0]] 2 rulesets.ConwayRule.apply_rule 1
     (by decide)).2.1⟩

/-- C5: on a window with live centre (index 4) and exactly one live
neighbour, the Seeds rule returns 1 — the live cell survives — although the
claim (and the rule's own docstring, read with the standard
centre-excluded neighbour count) requires every live cell to die (0): the
window sum of 2 includes the centre itself. -/
theorem C5_seeds_live_cell_survives :
    cell_automata.SeedsRule.rule_function [0, 1, 0, 0, 1, 0, 0, 0, 0] 1 0 = 1 := by
  decide

/-- C6 counterexample: rule identifiers listed in the spec's rule table that
are absent from the executor registry `rule_class_mapping`: the lookup
returns `None` for `Seeds`, `Fredkin`, `Rule30` and `Rule110` (the latter
two being exactly what the validator requests). -/
theorem C6_spec_table_rules_unregistered :
    rule_class_mapping "Seeds" = none ∧ rule_class_mapping "Fredkin" = none ∧
    rule_class_mapping "Rule30" = none ∧ rule_class_mapping "Rule110" = none :=
  ⟨rfl, rfl, rfl, rfl⟩

/-- C6 (amended): any rule identifier outside the registry fails the
executor's lookup with the unknown-rule `ValueError` before any evolution
step runs (the input grid is untouched — `forward` returns only the error);
but the registry resolves exactly `Conway`, `HighLife` and `DayAndNight`,
not every identifier in the spec's rule table. -/
theorem C6_unknown_rule_amended (s : String) (g : GridState) (k : Nat)
    (h : rule_class_mapping s = none) :
    miner.forward s g k = .error ("Rule " ++ s ++ " is not recognized.") ∧
    (rule_class_mapping "Conway").isSome = true ∧
    (rule_class_mapping "HighLife").isSome = true ∧
    (rule_class_mapping "DayAndNight").isSome = true := by
  refine ⟨?_, rfl, rfl, rfl⟩
  simp [miner.forward, h]

theorem C6_unknown_rule_amended_witness :
    miner.forward "BriansBrain" [[0]] 1 =
      .error ("Rule " ++ "BriansBrain" ++ " is not recognized.") :=
  (C6_unknown_rule_amended "BriansBrain" [[0]] 1 rfl).1

/-- C7 counterexample: a grid with zero cells is serialized successfully —
`serialize_parameters` performs no zero-cell (or element-type) check, so no
`InvalidInput` error is raised. -/
theorem C7_zero_cell_grid_accepted :
    serialize_parameters ⟨Dtype.uint8, [0], []⟩ 1 "Conway" "Moore" =
      .ok (paramsMetadataOf ⟨Dtype.uint8, [0], []⟩ 1 "Conway" "Moore", []) := rfl

/-- C7 (amended): `serialize_parameters` succeeds exactly when the scalar
parameters are well formed — positive step count, non-empty rule and
neighbourhood strings; the grid itself is never validated, so zero-cell
grids (and every modelled element type) are accepted and encoded. -/
theorem C7_serialize_validation_amended (g : Grid) (steps : Int) (rf nf : String) :
    (∃ out, serialize_parameters g steps rf nf = .ok out) ↔
      (0 < steps ∧ rf ≠ "" ∧ nf ≠ "") := by
  by_cases h1 : steps ≤ 0
  · have h1' : ¬ (0 : Int) < steps := by omega
    simp [serialize_parameters, h1, h1']
  · have h1' : (0 : Int) < steps := by omega
    by_cases h2 : rf = ""
    · simp [serialize_parameters, h1, h2]
    · by_cases h3 : nf = ""
      · simp [serialize_parameters, h1, h2, h3]
      · simp [serialize_parameters, h1, h2, h3, h1']

/-- C8: constructing a simulation leaves the recognized neighbourhood
identifiers `"Moore"` and `"von Neumann"` unchanged and silently normalizes
every other value — including the spec's wire spelling `"VonNeumann"` — to
`"Moore"`; construction is total, so no error is ever raised. -/
theorem C8_neighborhood_normalization (ca : GridState) (timesteps r : Nat)
    (rule_instance : List (List Int) → Int → Nat → Option Int) (s : String) :
    ((s = "Moore" ∨ s = "von Neumann") →
      (Simulate.init ca timesteps rule_instance r s).neighborhood_type = s) ∧
    (¬(s = "Moore" ∨ s = "von Neumann") →
      (Simulate.init ca timesteps rule_instance r s).neighborhood_type = "Moore") ∧
    (Simulate.init ca timesteps rule_instance r "VonNeumann").neighborhood_type = "Moore" := by
  refine ⟨fun h => ?_, fun h => ?_, rfl⟩
  · rcases h with h | h <;> subst h <;> rfl
  · have hmem : s ∉ (["Moore", "von Neumann"] : List String) := by
      simpa using h
    simp [Simulate.init, hmem]

theorem C8_neighborhood_normalization_witness :
    (("von Neumann" : String) = "Moore" ∨ ("von Neumann" : String) = "von Neumann") ∧
    (Simulate.init [[0]] 1 rulesets.ConwayRule.apply_rule 1 "von Neumann").neighborhood_type =
      "von Neumann" ∧
    (Simulate.init [[0]] 1 rulesets.ConwayRule.apply_rule 1 "VonNeumann").neighborhood_type =
      "Moore" :=
  ⟨Or.inr rfl,
   (C8_neighborhood_normalization [[0]] 1 1 rulesets.ConwayRule.apply_rule "von Neumann").1
     (Or.inr rfl),
   (C8_neighborhood_normalization [[0]] 1 1 rulesets.ConwayRule.apply_rule "VonNeumann").2.2⟩

/-- C9: when the centre state is 0 and the window sum is not 2, the Brian's
Brain rule function falls through every branch and returns no state value at
all (Python `None`, here `none`) instead of the dead state 0. -/
theorem C9_briansbrain_dead_fallthrough (n : List Int) (c : Int) (t : Nat)
    (hc : c = 0) (hs : n.sum ≠ 2) :
    cell_automata.BriansBrainRule.rule_function n c t = none := by
  subst hc
  simp [cell_automata.BriansBrainRule.rule_function, hs]

theorem C9_briansbrain_dead_fallthrough_witness :
    (0 : Int) = 0 ∧ ([0, 0, 0, 0, 0, 0, 0, 0, 0] : List Int).sum ≠ 2 ∧
    cell_automata.BriansBrainRule.rule_function [0, 0, 0, 0, 0, 0, 0, 0, 0] 0 0 = none :=
  ⟨rfl, by decide,
   C9_briansbrain_dead_fallthrough [0, 0, 0, 0, 0, 0, 0, 0, 0] 0 0 rfl (by decide)⟩

/-- C10: a metadata block with no `hash` field makes the stored digest
default to the empty string, which no recomputed SHA-256 hex digest (always
64 characters) can equal, so decode always fails closed with the integrity
error. -/
theorem C10_missing_hash_always_rejected (dtype : String) (shape : List Nat)
    (steps : Option Int) (rule_func neighborhood_func : Option String)
    (payload : List Nat) (adtype : String) (ashape : List Nat) :
    deserialize_parameters ⟨dtype, shape, none, steps, rule_func, neighborhood_func⟩ payload =
      .error .integrity ∧
    deserialize_automaton ⟨adtype, ashape, none⟩ payload = .error .integrity := by
  constructor
  · simp [deserialize_parameters, SHA256.sha256hex_ne_empty]
  · simp [deserialize_automaton, SHA256.sha256hex_ne_empty]

end Automata
